import Mathlib

set_option maxRecDepth 100000

/-!
Verification of the query engine of the ML-chatbot repository
(`src/query_engine/{query_parser,query_planner,query_executor}.py`).

The shallow embedding below models pandas DataFrames as lists of rows
(association lists from column name to a cell value), with machine floats
modelled by `ℚ`.  A cell holds either a string, a number, or null (NaN);
`Value.num` represents any cell that `pd.to_numeric` coerces successfully,
`Value.str` a cell that does not, and `Value.null` a missing value.
Uncaught Python exceptions are modelled with `Except PyExc`.
-/

namespace MLChatbot

/-- A pandas cell value.  `num` stands for any value that `pd.to_numeric`
coerces to a number, `null` for NaN/None, `str` for non-numeric text. -/
inductive Value where
  | str (s : String)
  | num (q : ℚ)
  | null
deriving DecidableEq, Repr

/-- Models `pd.to_numeric(..., errors="coerce")`: numbers survive, everything else
becomes NaN (`none`). -/
def Value.toNum : Value → Option ℚ
  | .num q => some q
  | _ => none

/-- Models `astype(str)` / `str(...)` of a cell.  NaN stringifies to "nan".  The
rendering of numbers differs cosmetically from Python (`toString q` instead
of the float repr); it is only ever used in substring matching against
alphabetic state/crop names and in output payload keys, where the claims
under study never exercise numeric cells. -/
def Value.toStr : Value → String
  | .str s => s
  | .num q => toString q
  | .null => "nan"

/-- Models `str.lower()`, ASCII (the program's inputs are ASCII).  Defined over the
character list so that proofs can evaluate it. -/
def strLower (s : String) : String := ⟨s.toList.map Char.toLower⟩

/-- Models `str.strip()`: whitespace removed from both ends. -/
def strTrim (s : String) : String :=
  ⟨((s.toList.dropWhile Char.isWhitespace).reverse.dropWhile Char.isWhitespace).reverse⟩

/-- An embedded DataFrame: the ordered column list plus the rows. -/
structure DFrame where
  cols : List String
  rows : List (List (String × Value))
deriving DecidableEq, Repr

/-- Models `df.empty` in pandas: true when either axis has length 0. -/
def DFrame.isEmpty (df : DFrame) : Bool := df.rows.isEmpty || df.cols.isEmpty

/-- Read one cell of a row; a field absent from the row is NaN. -/
def cellOf (r : List (String × Value)) (c : String) : Value :=
  (r.lookup c).getD .null

/-- The values of one column. -/
def colVals (df : DFrame) (c : String) : List Value := df.rows.map (cellOf · c)

/-! ### String helpers (substring and regex-fragment searching) -/

/-- Models `listStartsWith pat l`: `pat` is an initial segment of `l`. -/
def listStartsWith : List Char → List Char → Bool
  | [], _ => true
  | _ :: _, [] => false
  | a :: as, b :: bs => a == b && listStartsWith as bs

/-- Leftmost index at which `pat` occurs in the remaining list. -/
def findSubPosAux (pat : List Char) : List Char → Nat → Option Nat
  | [], i => if listStartsWith pat [] then some i else none
  | l@(_ :: t), i => if listStartsWith pat l then some i else findSubPosAux pat t (i + 1)

/-- Python `pat in hay` (plain substring). -/
def strContainsSub (hay pat : String) : Bool :=
  (findSubPosAux pat.toList hay.toList 0).isSome

/-- Models `.str.contains(pat, case=False)` for the plain-text patterns used by the
program (state and crop names contain no regex metacharacters, so regex
search coincides with substring search). -/
def strContainsCI (hay pat : String) : Bool :=
  strContainsSub (strLower hay) (strLower pat)

/-- A regex word character (`\w`): letters, digits, underscore. -/
def wordChar (c : Char) : Bool := c.isAlphanum || c = '_'

/-- A word boundary holds before the current position. -/
def boundaryOk (prev : Option Char) : Bool :=
  match prev with
  | none => true
  | some c => !wordChar c

/-- Leftmost match of `\b pat \b` (patterns here begin and end with word
characters), returning its start index. -/
def findWordPosAux (pat : List Char) : Option Char → List Char → Nat → Option Nat
  | _, [], _ => none
  | prev, l@(c :: t), i =>
    if listStartsWith pat l && boundaryOk prev &&
        (match l.drop pat.length with
         | [] => true
         | d :: _ => !wordChar d) then
      some i
    else findWordPosAux pat (some c) t (i + 1)

def findWordPos (hay pat : List Char) : Option Nat := findWordPosAux pat none hay 0

def natOfDigits (ds : List Char) : Nat :=
  ds.foldl (fun a c => a * 10 + (c.toNat - 48)) 0

/-- Try to match `(\d+)\s*years?` at the head of the list, returning the
captured number.  (Backtracking of `\d+` can never help here, so the greedy
reading is exact.) -/
def numYearsAt (hay : List Char) : Option Nat :=
  let digits := hay.takeWhile Char.isDigit
  if digits.isEmpty then none
  else
    let rest := (hay.drop digits.length).dropWhile Char.isWhitespace
    if listStartsWith "year".toList rest then some (natOfDigits digits) else none

/-- Try to match `top\s+(\d+)` at the head of the list. -/
def topNAt (hay : List Char) : Option Nat :=
  if listStartsWith "top".toList hay then
    let rest := hay.drop 3
    let sp := rest.takeWhile Char.isWhitespace
    if sp.isEmpty then none
    else
      let ds := (rest.drop sp.length).takeWhile Char.isDigit
      if ds.isEmpty then none else some (natOfDigits ds)
  else none

/-- Models `re.search`: try `f` at each start position, leftmost first. -/
def scanFirst {α : Type} (f : List Char → Option α) : List Char → Option α
  | [] => f []
  | l@(_ :: t) =>
    match f l with
    | some v => some v
    | none => scanFirst f t

/-- Leftmost match of `\b(20\d{2}|19\d{2})\b`, returning the year. -/
def scanYear : Option Char → List Char → Option Nat
  | _, [] => none
  | prev, l@(a :: t) =>
    (match l with
     | a :: b :: c :: d :: rest =>
       if boundaryOk prev && a.isDigit && b.isDigit && c.isDigit && d.isDigit &&
           ((a = '2' && b = '0') || (a = '1' && b = '9')) &&
           (match rest with
            | [] => true
            | e :: _ => !wordChar e) then
         some (natOfDigits [a, b, c, d])
       else none
     | _ => none).orElse
      (fun _ => scanYear (some a) t)

/-! ### Column-role resolution (`pick` in `_compute_rainfall_compare`,
`find_col` in the other computations — identical bodies in the source). -/

/-- Models `find_col(candidates)`: exact pass over all candidates first, then a
case-insensitive pass; the case-insensitive pass reads the column out of
`{c.lower(): c for c in df.columns}`, in which the *last* column with a
given lowercase form wins. -/
def find_col (cands cols : List String) : Option String :=
  match cands.find? (fun c => cols.contains c) with
  | some c => some c
  | none =>
    match cands.find? (fun c => cols.any (fun col => strLower col == strLower c)) with
    | some c => cols.reverse.find? (fun col => strLower col == strLower c)
    | none => none

/-- Models `pick` in `_compute_rainfall_compare` has the same body as `find_col`. -/
def pick (cands cols : List String) : Option String := find_col cands cols

/-! ### Sorting, slicing, grouping helpers -/

/-- Python `l[-n:]` for a non-negative `n` (`l[-0:]` is the whole list). -/
def pyTail {α : Type} (n : Nat) (l : List α) : List α :=
  if n = 0 then l else l.drop (l.length - n)

/-- Models `all_years[-years:] if len(all_years) >= years else all_years`. -/
def recentTail {α : Type} (n : Nat) (l : List α) : List α :=
  if l.length ≥ n then pyTail n l else l

/-- Python `int(...)` on a float: truncation toward zero. -/
def pyInt (q : ℚ) : Int := q.num.tdiv q.den

/-- The numeric entries of a list of cells (`dropna` after `to_numeric`). -/
def numsOf (vs : List Value) : List ℚ := vs.filterMap Value.toNum

/-- pandas `Series.unique()` keeps the first occurrence of each value. -/
def uniqFirst {α : Type} [DecidableEq α] : List α → List α
  | [] => []
  | a :: as => a :: uniqFirst (as.filter (fun b => b ≠ a))
termination_by l => l.length
decreasing_by
  simp only [List.length_cons]
  exact Nat.lt_succ_of_le (List.length_filter_le _ _)

/-- A Python float that may be NaN (the mean of an all-NaN series). -/
inductive PFloat where
  | nan
  | val (q : ℚ)
deriving DecidableEq, Repr

/-- Models `Series.mean()`: NaN values are skipped; the mean of no numbers is NaN. -/
def seriesMean (vs : List Value) : PFloat :=
  let ns := numsOf vs
  if ns.isEmpty then .nan else .val (ns.sum / ns.length)

/-- Code-point lexicographic `<=` on character lists: Python's string
comparison, used by pandas when sorting string group keys. -/
def listCharLe : List Char → List Char → Bool
  | [], _ => true
  | _ :: _, [] => false
  | a :: as, b :: bs => decide (a < b) || (a == b && listCharLe as bs)

/-- Python's `<=` on strings. -/
def strLe (a b : String) : Prop := listCharLe a.toList b.toList = true

instance : DecidableRel strLe := fun a b =>
  inferInstanceAs (Decidable (_ = true))

theorem listCharLe_total : ∀ a b : List Char,
    listCharLe a b = true ∨ listCharLe b a = true
  | [], _ => Or.inl rfl
  | _ :: _, [] => Or.inr rfl
  | a :: as, b :: bs => by
    rcases lt_trichotomy a b with h | h | h
    · exact Or.inl (by simp [listCharLe, h])
    · subst h
      rcases listCharLe_total as bs with h2 | h2
      · exact Or.inl (by simp [listCharLe, h2])
      · exact Or.inr (by simp [listCharLe, h2])
    · exact Or.inr (by simp [listCharLe, h])

theorem listCharLe_trans : ∀ a b c : List Char,
    listCharLe a b = true → listCharLe b c = true → listCharLe a c = true
  | [], _, _, _, _ => rfl
  | _ :: _, [], _, h1, _ => by simp [listCharLe] at h1
  | _ :: _, _ :: _, [], _, h2 => by simp [listCharLe] at h2
  | a :: as, b :: bs, c :: cs, h1, h2 => by
    simp only [listCharLe, Bool.or_eq_true, Bool.and_eq_true, decide_eq_true_eq,
      beq_iff_eq] at h1 h2 ⊢
    rcases h1 with h1 | ⟨he1, hr1⟩ <;> rcases h2 with h2 | ⟨he2, hr2⟩
    · exact Or.inl (lt_trans h1 h2)
    · exact Or.inl (he2 ▸ h1)
    · exact Or.inl (he1 ▸ h2)
    · exact Or.inr ⟨he1.trans he2, listCharLe_trans as bs cs hr1 hr2⟩

instance : IsTotal String strLe := ⟨fun a b => listCharLe_total _ _⟩

instance : IsTrans String strLe := ⟨fun _ _ _ h1 h2 => listCharLe_trans _ _ _ h1 h2⟩

/-- Ascending comparison on grouped `(key, sum)` pairs is on the key;
`sort_values(prod, ascending=False)` then orders by the sum, descending.
`descSnd a b` holds when `a` may come before `b` in the descending order. -/
def descSnd {κ : Type} (a b : κ × ℚ) : Prop := b.2 ≤ a.2

instance {κ : Type} : DecidableRel (@descSnd κ) := fun a b =>
  inferInstanceAs (Decidable (b.2 ≤ a.2))

instance {κ : Type} : IsTotal (κ × ℚ) descSnd :=
  ⟨fun a b => (le_total b.2 a.2).imp id id⟩

instance {κ : Type} : IsTrans (κ × ℚ) descSnd :=
  ⟨fun _ _ _ h1 h2 => le_trans h2 h1⟩

/-- An (arbitrary but fixed) total preorder on cell values, standing in for
pandas' ordering of group keys; on the homogeneous string or numeric key
columns actually exercised it is the genuine order. -/
def valueLe : Value → Value → Prop
  | .str a, .str b => strLe a b
  | .num a, .num b => a ≤ b
  | .null, _ => True
  | _, .null => False
  | .str _, .num _ => True
  | .num _, .str _ => False

instance : DecidableRel valueLe := fun a b => by
  cases a <;> cases b <;> simp only [valueLe] <;> infer_instance

instance : IsTotal Value valueLe :=
  ⟨fun a b => by
    cases a <;> cases b <;> simp only [valueLe] <;>
      first
        | exact Or.inl trivial
        | exact Or.inr trivial
        | exact listCharLe_total _ _
        | exact le_total _ _⟩

instance : IsTrans Value valueLe :=
  ⟨fun a b c h1 h2 => by
    cases a <;> cases b <;> cases c <;>
      simp only [valueLe] at h1 h2 ⊢ <;>
      first
        | trivial
        | exact listCharLe_trans _ _ _ h1 h2
        | exact le_trans h1 h2⟩

/-- Lexicographic order on `(district, year)` keys. -/
def pairKeyLe (a b : Value × ℚ) : Prop :=
  (valueLe a.1 b.1 ∧ ¬ valueLe b.1 a.1) ∨ (valueLe a.1 b.1 ∧ valueLe b.1 a.1 ∧ a.2 ≤ b.2)

instance : DecidableRel pairKeyLe := fun a b => by
  unfold pairKeyLe; infer_instance

instance : IsTotal (Value × ℚ) pairKeyLe :=
  ⟨fun a b => by
    rcases IsTotal.total (r := valueLe) a.1 b.1 with h | h
    · by_cases h2 : valueLe b.1 a.1
      · rcases le_total a.2 b.2 with h3 | h3
        · exact Or.inl (Or.inr ⟨h, h2, h3⟩)
        · exact Or.inr (Or.inr ⟨h2, h, h3⟩)
      · exact Or.inl (Or.inl ⟨h, h2⟩)
    · by_cases h2 : valueLe a.1 b.1
      · rcases le_total a.2 b.2 with h3 | h3
        · exact Or.inl (Or.inr ⟨h2, h, h3⟩)
        · exact Or.inr (Or.inr ⟨h, h2, h3⟩)
      · exact Or.inr (Or.inl ⟨h, h2⟩)⟩

instance : IsTrans (Value × ℚ) pairKeyLe :=
  ⟨fun a b c h1 h2 => by
    rcases h1 with ⟨hab, hnba⟩ | ⟨hab, hba, hq⟩ <;>
      rcases h2 with ⟨hbc, hncb⟩ | ⟨hbc, hcb, hq2⟩
    · exact Or.inl ⟨IsTrans.trans _ _ _ hab hbc, fun hca => hnba (IsTrans.trans _ _ _ hbc hca)⟩
    · exact Or.inl ⟨IsTrans.trans _ _ _ hab hbc, fun hca => hnba (IsTrans.trans _ _ _ hbc hca)⟩
    · exact Or.inl ⟨IsTrans.trans _ _ _ hab hbc, fun hca => hncb (IsTrans.trans _ _ _ hca hab)⟩
    · exact Or.inr ⟨IsTrans.trans _ _ _ hab hbc, IsTrans.trans _ _ _ hcb hba, le_trans hq hq2⟩⟩

/-- The sum a groupby assigns to key `k`: the non-NaN values of the pairs
carrying that key. -/
def groupTotal {κ : Type} [DecidableEq κ] (pairs : List (κ × Option ℚ)) (k : κ) : ℚ :=
  ((pairs.filter (fun p => p.1 = k)).filterMap Prod.snd).sum

/-- Models `df.groupby(key, as_index=False)[val].sum()`: one output row per distinct
key, keys sorted ascending, each group's sum skipping NaN.  NaN keys are
dropped by pandas before grouping; callers with `Value` keys filter them. -/
def groupBySum {κ : Type} [DecidableEq κ] (le : κ → κ → Prop) [DecidableRel le]
    (pairs : List (κ × Option ℚ)) : List (κ × ℚ) :=
  (List.insertionSort le (pairs.map Prod.fst).dedup).map
    (fun k => (k, groupTotal pairs k))

/-- Models `grouped.loc[grouped[col].idxmax()]`: the first row attaining the max. -/
def pickFirstMax {κ : Type} : List (κ × ℚ) → Option (κ × ℚ)
  | [] => none
  | p :: ps => some (ps.foldl (fun best q => if best.2 < q.2 then q else best) p)

/-- Python `str.title()`: upper-case every letter that starts an alphabetic
run, lower-case the other letters. -/
def pyTitleGo : Bool → List Char → List Char
  | _, [] => []
  | prevAlpha, c :: cs =>
    (if c.isAlpha then (if prevAlpha then c.toLower else c.toUpper) else c) ::
      pyTitleGo c.isAlpha cs

def pyTitle (s : String) : String := ⟨pyTitleGo false s.toList⟩

/-- Ascending order on grouped `(key, sum)` pairs by the summed value. -/
def ascSnd {κ : Type} (a b : κ × ℚ) : Prop := a.2 ≤ b.2

instance {κ : Type} : DecidableRel (@ascSnd κ) := fun a b =>
  inferInstanceAs (Decidable (a.2 ≤ b.2))

instance {κ : Type} : IsTotal (κ × ℚ) ascSnd := ⟨fun a b => le_total a.2 b.2⟩

instance {κ : Type} : IsTrans (κ × ℚ) ascSnd := ⟨fun _ _ _ => le_trans⟩

/-! ### Column-candidate lists (verbatim from the source, duplicates kept) -/

def stateCandsRF : List String :=
  ["STATE", "STATE_UT_NAME", "SUBDIVISION", "State", "STATE/UT", "subdivision"]

def yearCandsRF : List String := ["YEAR", "Year", "year", "Year", "YEAR"]

def annualCandsRF : List String := ["ANNUAL", "Annual", "ANN", "Rainfall", "annual"]

def stateCandsCP : List String :=
  ["State_Name", "STATE", "State", "STATE/UT", "STATE_UT_NAME", "State Name"]

def cropCandsCP : List String := ["Crop", "CROP", "Crop_Name", "Commodity", "CROP_NAME"]

def prodCandsCP : List String :=
  ["Production", "PRODUCTION", "Prodn", "PROD", "production_tonnes"]

def districtCandsCP : List String := ["District_Name", "District", "DISTRICT", "District Name"]

def prodCandsDist : List String :=
  ["Production", "PRODUCTION", "Prodn", "PROD", "production_tonnes", "Prod"]

def yearCandsCP : List String := ["Year", "YEAR", "year"]

def yearCandsTCS : List String := ["Year", "YEAR", "year", "_year"]

/-! ### `_compute_rainfall_compare` -/

/-- One per-state record of the rainfall comparison output
(`{"years": recent_years, "avg_annual_mm": float | None}`). -/
structure RCEntry where
  years : List ℚ
  avg : Option PFloat
deriving DecidableEq, Repr

inductive RCOut where
  | noDataset
  | schemaError (cols : List String)
  | ok (e1 e2 : RCEntry)
deriving DecidableEq, Repr

/-- Models `sub[sc].str.contains(s, case=False, na=False)`: the `.str` accessor
yields NaN on non-string cells, and `na=False` drops those rows. -/
def rcMatches (v : Value) (s : String) : Bool :=
  match v with
  | .str t => strContainsCI t s
  | _ => false

def computeRainfallCompare (df : DFrame) (state1 state2 : String) (years : Nat) : RCOut :=
  if df.isEmpty then .noDataset
  else
    match pick stateCandsRF df.cols, pick yearCandsRF df.cols, pick annualCandsRF df.cols with
    | some sc, some yc, some ac =>
      let recent := pyTail years (List.insertionSort (· ≤ ·) (numsOf (colVals df yc)).dedup)
      let sub := df.rows.filter (fun r =>
        match (cellOf r yc).toNum with
        | some q => recent.contains q
        | none => false)
      let entryFor := fun (s : String) =>
        let srows := sub.filter (fun r => rcMatches (cellOf r sc) s)
        ({ years := recent,
           avg := if srows.isEmpty then none
                  else some (seriesMean (srows.map (cellOf · ac))) } : RCEntry)
      .ok (entryFor state1) (entryFor state2)
    | _, _, _ => .schemaError df.cols

/-! ### `_compute_top_crops` -/

inductive TCOut where
  | note
  | errSchema (cols : List String)
  | ok (e1 e2 : List (Value × ℚ))
deriving DecidableEq, Repr

def computeTopCrops (df : DFrame) (state1 state2 : String) (top_m : Nat)
    (crop_type : String) : TCOut :=
  if df.isEmpty then .note
  else
    let sc? := find_col stateCandsCP df.cols
    let cc? := find_col cropCandsCP df.cols
    let pc := (find_col prodCandsCP df.cols).getD "Production"
    -- the numeric coercion of `prod_col` (and "Area") is guarded by a
    -- membership test here, so it cannot raise
    match sc?, cc? with
    | some sc, some cc =>
      if df.cols.contains pc then
        let topFor := fun (s : String) =>
          let r1 := df.rows.filter (fun r => strContainsCI (cellOf r sc).toStr s)
          let r2 := if crop_type ≠ "" then
              r1.filter (fun r => strContainsCI (cellOf r cc).toStr crop_type)
            else r1
          (List.insertionSort descSnd
            (groupBySum valueLe
              ((r2.filter (fun r => cellOf r cc ≠ .null)).map
                (fun r => (cellOf r cc, (cellOf r pc).toNum))))).take top_m
        .ok (topFor state1) (topFor state2)
      else .errSchema df.cols
    | _, _ => .errSchema df.cols

/-! ### `_compute_district_crop_extrema` -/

deriving instance DecidableEq for Except

/-- An uncaught Python exception escaping a computation: `KeyError` from a
missing column or dict key, `IndexError` from `iloc[0]` on an empty frame,
`ValueError` from `idxmax` on an empty series. -/
inductive PyExc where
  | keyError (k : String)
  | indexError
  | valueError
deriving DecidableEq, Repr

structure EXEntry where
  state : String
  crop : String
  district : String
  year : Int
  production : ℚ
deriving DecidableEq, Repr

inductive EXOut where
  | errUnavailable
  | errSchema (cols : List String)
  | ok (mx mn : Option EXEntry)
deriving DecidableEq, Repr

def computeDistrictCropExtrema (df : DFrame)
    (state_max crop_max state_min crop_min : String) : Except PyExc EXOut :=
  if df.isEmpty then .ok .errUnavailable
  else
    match find_col stateCandsCP df.cols, find_col districtCandsCP df.cols,
        find_col cropCandsCP df.cols, find_col prodCandsDist df.cols,
        find_col yearCandsCP df.cols with
    | some sc, some dc, some cc, some pc, some yc =>
      let extremaFor := fun (st cr : String) (minMode : Bool) =>
        let sub := df.rows.filter (fun r =>
          strContainsCI (cellOf r sc).toStr st && strContainsCI (cellOf r cc).toStr cr)
        if sub.isEmpty then Except.ok none
        else
          let yrs := List.insertionSort (· ≤ ·) (numsOf (sub.map (cellOf · yc))).dedup
          match yrs.getLast? with
          | none => Except.ok none
          | some recent =>
            let subr := sub.filter (fun r => (cellOf r yc).toNum = some recent)
            let grouped := groupBySum valueLe
              ((subr.filter (fun r => cellOf r dc ≠ .null)).map
                (fun r => (cellOf r dc, (cellOf r pc).toNum)))
            let sorted := if minMode then List.insertionSort ascSnd grouped
                          else List.insertionSort descSnd grouped
            match sorted.head? with
            | some row => Except.ok (some (⟨st, cr, row.1.toStr, pyInt recent, row.2⟩ : EXEntry))
            | none => Except.error PyExc.indexError  -- `grouped.iloc[0]` on an empty grouping
      do
        let mx ← extremaFor state_max crop_max false
        let mn ← extremaFor state_min crop_min true
        return .ok mx mn
    | _, _, _, _, _ => .ok (.errSchema df.cols)

/-! ### `_compute_top_crops_state` -/

structure DebugInfo where
  totalRowsAfterFilter : Nat
  uniqueCropsFound : Nat
  cropsReturned : Nat
  sampleCrops : List String
  sampleData : List (String × ℚ × ℚ)
deriving DecidableEq, Repr

inductive TCSOut where
  | errEmptyDataset (state : String)
  | errNoData (state : String) (totalRows : Nat) (sampleStateValues : List String)
  | errNoRecent (state : String) (availableYears requestedYears : List ℚ)
  | errNoValidCrop (state : String)
  | ok (state : String) (topN yrs : Nat) (crops : List (String × ℚ))
      (yearRange : List Int) (debugInfo : Option DebugInfo)
  | errFormat (state : String) (availableCols : List String)
      (foundState foundCrop : Option String) (foundProd : String) (foundYear : Option String)
  | errNoWideData (state : String)
  | errYearParse (yearColumn : String) (sampleValues : List Value)
  | errNoCropCols (cols : List String)
  | okWide (state : String) (topN yrs : Nat) (crops : List (String × ℚ))
      (yearRange : List Int)
deriving DecidableEq, Repr

/-- Models `float(s)` for the plain decimal literals relevant here; exotic literal
forms (exponents, leading dot) are not exercised by the program's data. -/
def pyFloatParse (s : String) : Option ℚ :=
  let l := (strTrim s).toList
  let sl : ℚ × List Char :=
    match l with
    | '-' :: t => (-1, t)
    | '+' :: t => (1, t)
    | _ => (1, l)
  let ds := sl.2.takeWhile Char.isDigit
  if ds.isEmpty then none
  else
    match sl.2.drop ds.length with
    | [] => some (sl.1 * natOfDigits ds)
    | '.' :: rest2 =>
      let fs := rest2.takeWhile Char.isDigit
      if (rest2.drop fs.length).isEmpty then
        some (sl.1 * ((natOfDigits ds : ℚ) + (natOfDigits fs : ℚ) / (10 ^ fs.length)))
      else none
    | _ => none

/-- Models `re.search(r'(\d{4})', s)`: the first run of four digits. -/
def extract4 (s : String) : Option Nat :=
  scanFirst
    (fun l =>
      match l with
      | a :: b :: c :: d :: _ =>
        if a.isDigit && b.isDigit && c.isDigit && d.isDigit then
          some (natOfDigits [a, b, c, d])
        else none
      | _ => none)
    s.toList

/-- One iteration of the `years_numeric` loop: `int(float(y))`, falling back
to the first 4-digit run of `str(y)`. -/
def valueYearLoop (v : Value) : Option Int :=
  match v with
  | .num q => some (pyInt q)
  | .str s =>
    match pyFloatParse s with
    | some q => some (pyInt q)
    | none => (extract4 s).map Int.ofNat
  | .null => none

/-- Models `extract_year(val)`: a numeric value truncates; a string yields its first
4-digit run; all failures yield None. -/
def valueYearExtract (v : Value) : Option Int :=
  match v with
  | .num q => some (pyInt q)
  | .str s => (extract4 s).map Int.ofNat
  | .null => none

/-- Models `pd.api.types.is_numeric_dtype(df[c])`: dtype is a whole-column property
of the originally loaded frame (row filtering never changes it); a column is
numeric when no cell is non-numeric text. -/
def colIsNumeric (df : DFrame) (c : String) : Bool :=
  (colVals df c).all (fun v => match v with | .str _ => false | _ => true)

/-- Models `df[df[state_col].astype(str).str.contains(state, case=False, na=False)]`. -/
def tcsStateFilter (df : DFrame) (sc state : String) : List (List (String × Value)) :=
  df.rows.filter (fun r => strContainsCI (cellOf r sc).toStr state)

/-- The numeric year values of the state-filtered rows
(`filtered[year_col].dropna()` after coercion). -/
def tcsStatePool (df : DFrame) (state : String) (sc yc : String) : List ℚ :=
  numsOf ((tcsStateFilter df sc state).map (cellOf · yc))

/-- Models `all_years[-years:] if len(all_years) >= years else all_years` over
`sorted(filtered[year_col].dropna().unique())` — computed from the rows of
the requested state, not from the whole table. -/
def tcsWindow (df : DFrame) (state : String) (yrs : Nat) (sc yc : String) : List ℚ :=
  recentTail yrs (List.insertionSort (· ≤ ·) (tcsStatePool df state sc yc).dedup)

/-- Models `filtered[filtered[year_col].isin(recent_years)]`. -/
def tcsRecentRows (df : DFrame) (state : String) (yrs : Nat) (sc yc : String) :
    List (List (String × Value)) :=
  (tcsStateFilter df sc state).filter (fun r =>
    match (cellOf r yc).toNum with
    | some q => (tcsWindow df state yrs sc yc).contains q
    | none => false)

/-- Models `dropna(subset=[crop_col, prod_col])`, then the crop key is
`astype(str).str.strip()`, then rows with an empty crop key are removed
(source lines 345–350); each surviving row is keyed by its cleaned crop. -/
def tcsCropRows (df : DFrame) (state : String) (yrs : Nat) (sc cc pc yc : String) :
    List (String × List (String × Value)) :=
  (((tcsRecentRows df state yrs sc yc).filter (fun r =>
      (cellOf r cc != Value.null) && (cellOf r pc).toNum.isSome)).map
    (fun r => (strTrim (cellOf r cc).toStr, r))).filter (fun p => p.1 != "")

/-- The `(crop, production)` pairs fed into `groupby(crop_col).sum()`. -/
def tcsCropPairs (df : DFrame) (state : String) (yrs : Nat) (sc cc pc yc : String) :
    List (String × Option ℚ) :=
  (tcsCropRows df state yrs sc cc pc yc).map (fun p => (p.1, (cellOf p.2 pc).toNum))

/-- The long-format branch of `_compute_top_crops_state` (source lines
322–384), written over the named pipeline stages above (the source binds the
same intermediate frames to the local `filtered`).
`pd.to_numeric(df[prod_col], ...)` raises `KeyError` when the defaulted
`"Production"` column is absent. -/
def tcsLong (df : DFrame) (state : String) (top_n yrs : Nat)
    (sc cc pc yc : String) : Except PyExc (Option TCSOut) :=
  if df.cols.contains pc then
    if (tcsStateFilter df sc state).isEmpty then
      .ok (some (.errNoData state df.rows.length
        ((uniqFirst ((colVals df sc).map Value.toStr)).take 5)))
    else if (tcsRecentRows df state yrs sc yc).isEmpty then
      .ok (some (.errNoRecent state
        (List.insertionSort (· ≤ ·) (tcsStatePool df state sc yc).dedup)
        (tcsWindow df state yrs sc yc)))
    else if (tcsCropRows df state yrs sc cc pc yc).isEmpty then
      .ok (some (.errNoValidCrop state))
    else
      let rows4 := tcsCropRows df state yrs sc cc pc yc
      let top := (List.insertionSort descSnd
        (groupBySum strLe (tcsCropPairs df state yrs sc cc pc yc))).take top_n
      let dbg : Option DebugInfo :=
        if top.length < top_n then
          some { totalRowsAfterFilter := rows4.length,
                 uniqueCropsFound := (rows4.map Prod.fst).dedup.length,
                 cropsReturned := top.length,
                 sampleCrops := (uniqFirst (rows4.map Prod.fst)).take 20,
                 sampleData := (rows4.take 20).map (fun p =>
                   (p.1, (cellOf p.2 pc).toNum.getD 0, (cellOf p.2 yc).toNum.getD 0)) }
        else none
      .ok (some (.ok state top_n yrs top ((tcsWindow df state yrs sc yc).map pyInt) dbg))
  else .error (.keyError pc)

/-- The wide-format branch (source lines 409–475).  `df0` is the originally
resolved frame (column dtypes are decided there), `df` the possibly
state-filtered frame.  Falling out of every `if` reproduces the function's
implicit `return None`. -/
def tcsWide (df0 df : DFrame) (state : String) (top_n yrs : Nat)
    (sc? yc0? : Option String) : Except PyExc (Option TCSOut) :=
  if df.cols.contains "_year" ||
      (match yc0? with | some y => listStartsWith "_".toList y.toList | none => false) then
    match
      (if df.cols.contains "_year" then some "_year"
       else find_col ["_year", "Year", "YEAR", "year"] df.cols) with
    | some yc =>
      let years_raw := uniqFirst ((colVals df yc).filter (fun v => v != Value.null))
      let years_numeric := years_raw.filterMap valueYearLoop
      if years_numeric.isEmpty then .ok (some (.errYearParse yc (years_raw.take 5)))
      else
        let recent := pyTail yrs (List.insertionSort (· ≤ ·) years_numeric)
        let dfr := df.rows.filter (fun r =>
          match valueYearExtract (cellOf r yc) with
          | some y => recent.contains y
          | none => false)
        let crop_cols := df.cols.filter (fun c =>
          (c != yc) && (c != "_year_numeric") &&
          (match sc? with | some sc => c != sc | none => true) &&
          colIsNumeric df0 c)
        if crop_cols.isEmpty then .ok (some (.errNoCropCols df.cols))
        else
          let molten := crop_cols.flatMap (fun c => dfr.map (fun r => (c, (cellOf r c).toNum)))
          let top := (List.insertionSort descSnd (groupBySum strLe molten)).take top_n
          .ok (some (.okWide state top_n yrs top (List.insertionSort (· ≤ ·) recent)))
    | none => .ok none
  else .ok none

/-- Models `_compute_top_crops_state` given the resolved frame.  The long-format
condition also requires `prod_col` to be truthy, which it always is (it is a
non-empty column name or the literal `"Production"`). -/
def computeTopCropsState (df : DFrame) (state : String) (top_n yrs : Nat) :
    Except PyExc (Option TCSOut) :=
  if df.isEmpty then .ok (some (.errEmptyDataset state))
  else
    let sc? := find_col stateCandsCP df.cols
    let cc? := find_col cropCandsCP df.cols
    let pc := (find_col prodCandsCP df.cols).getD "Production"
    let yc? := find_col yearCandsTCS df.cols
    match sc?, cc?, yc? with
    | some sc, some cc, some yc => tcsLong df state top_n yrs sc cc pc yc
    | _, _, _ =>
      if sc?.isSome && cc?.isSome then
        .ok (some (.errFormat state df.cols sc? cc? pc yc?))
      else
        let df1 := match sc? with
          | some sc => { df with rows := tcsStateFilter df sc state }
          | none => df
        if sc?.isSome && df1.rows.isEmpty then .ok (some (.errNoWideData state))
        else tcsWide df df1 state top_n yrs sc? yc?

/-! ### `_try_state_level_fallback` -/

structure FallbackAns where
  state : String
  crop : String
  year : Option Int
  totalProduction : ℚ
deriving DecidableEq, Repr

/-- Models `_try_state_level_fallback` over the resolved crop frame.  Two source
subtleties are modelled: `filtered` is a copy taken *before* the in-place
numeric coercion of `df`, so the year filter compares the original cell
values against the int `year` (a non-numeric cell never matches), and
`filtered[prod_col].sum()` also sums the original values — text cells make
`float(...)` raise, which the surrounding `except` turns into None. -/
def tryStateLevelFallback (df : DFrame) (state crop : String) (year? : Option Int) :
    Option FallbackAns :=
  if df.isEmpty then none
  else
    match find_col stateCandsCP df.cols, find_col cropCandsCP df.cols,
        find_col prodCandsCP df.cols with
    | some sc, some cc, some pc =>
      let yc? := find_col yearCandsCP df.cols
      let filtered := df.rows.filter (fun r =>
        strContainsCI (cellOf r sc).toStr state && strContainsCI (cellOf r cc).toStr crop)
      let filtered2 :=
        match yc?, year? with
        | some yc, some y =>
          if y ≠ 0 then filtered.filter (fun r => cellOf r yc == Value.num (y : ℚ))
          else filtered
        | _, _ => filtered
      if filtered2.isEmpty then none
      else
        if (filtered2.map (cellOf · pc)).all
            (fun v => match v with | .str _ => false | _ => true) then
          some ⟨state, crop, year?, (numsOf (filtered2.map (cellOf · pc))).sum⟩
        else none
    | _, _, _ => none

/-! ### `_compute_district_highest_crop_year` -/

inductive DHOut where
  | fallbackAnswer (state crop : String) (year : Option Int) (totalProduction : ℚ)
      (note warning suggestion : String)
  | errUnavailable (requiredColumns : List String) (alternativeQueries : List String)
  | errSchema (cols : List String)
      (foundState foundDistrict foundCrop foundProd foundYear : Option String)
  | errNoData (state crop : String) (year : Int)
  | ok (state crop : String) (year : Int) (district : String) (production : ℚ)
deriving DecidableEq, Repr

def altQuery1 (state : String) : String :=
  "List the top 10 crops produced in " ++ pyTitle state ++ " during the last 5 years"

def altQuery2 (state crop : String) : String :=
  "Compare " ++ crop ++ " production across all districts in " ++ pyTitle state ++
    " for the last 5 years"

def requiredColumnsDH : List String := ["State", "District", "Crop", "Production", "Year"]

/-- Models `_compute_district_highest_crop_year`, given the resolved district frame
and the frame the state-level fallback would use.  The `error`/`hint` strings
of the unavailable payload interpolate the configured resource id (external
configuration) and are not modelled; the structured `required_columns` and
`alternative_queries` fields are. -/
def computeDistrictHighestCropYear (districtDf fallbackDf : DFrame)
    (state crop : String) (year : Int) : Except PyExc DHOut :=
  if districtDf.isEmpty then
    match tryStateLevelFallback fallbackDf state crop (some year) with
    | some fb =>
      .ok (.fallbackAnswer fb.state fb.crop fb.year fb.totalProduction
        "For specific district information, please ensure DISTRICT_CROP_PRODUCTION_RESOURCE_ID is correctly configured."
        "District-level data not available. Showing state-level summary instead."
        "To get district-level data, try configuring a valid resource ID for district crop production.")
    | none => .ok (.errUnavailable requiredColumnsDH [altQuery1 state, altQuery2 state crop])
  else
    let sc? := find_col stateCandsCP districtDf.cols
    let dc? := find_col districtCandsCP districtDf.cols
    let cc? := find_col cropCandsCP districtDf.cols
    let pc? := find_col prodCandsDist districtDf.cols
    let yc? := find_col yearCandsCP districtDf.cols
    match sc?, dc?, cc?, pc?, yc? with
    | some sc, some dc, some cc, some pc, some yc =>
      let filtered := districtDf.rows.filter (fun r =>
        strContainsCI (cellOf r sc).toStr state &&
        strContainsCI (cellOf r cc).toStr crop &&
        ((cellOf r yc).toNum == some (year : ℚ)))
      if filtered.isEmpty then .ok (.errNoData state crop year)
      else
        let grouped := groupBySum valueLe
          ((filtered.filter (fun r => cellOf r dc != Value.null)).map
            (fun r => (cellOf r dc, (cellOf r pc).toNum)))
        match pickFirstMax grouped with
        | some mx => .ok (.ok state crop year mx.1.toStr mx.2)
        | none => .error .valueError  -- `idxmax` on an empty grouping
    | _, _, _, _, _ => .ok (.errSchema districtDf.cols sc? dc? cc? pc? yc?)

/-! ### `_compute_district_crop_comparison` -/

inductive DCCOut where
  | errUnavailable
  | errSchema (cols : List String)
  | errNoData (state crop : String) (yrs : Nat)
  | ok (state crop : String) (yrs : Nat) (yearRange : List Int)
      (districts : List (Value × ℚ)) (districtByYear : List ((Value × ℚ) × ℚ))
deriving DecidableEq, Repr

/-- The window of `_compute_district_crop_comparison`: computed from the
year column of the *whole* frame, before the state/crop filter. -/
def dccWindow (df : DFrame) (yrs : Nat) (yc : String) : List ℚ :=
  recentTail yrs (List.insertionSort (· ≤ ·) (numsOf (colVals df yc)).dedup)

/-- The state+crop+window row filter of `_compute_district_crop_comparison`. -/
def dccFiltered (df : DFrame) (state crop : String) (yrs : Nat) (sc cc yc : String) :
    List (List (String × Value)) :=
  df.rows.filter (fun r =>
    strContainsCI (cellOf r sc).toStr state &&
    strContainsCI (cellOf r cc).toStr crop &&
    (match (cellOf r yc).toNum with
     | some q => (dccWindow df yrs yc).contains q
     | none => false))

/-- The `(district, production)` pairs of the per-district totals groupby. -/
def dccDistrictPairs (df : DFrame) (state crop : String) (yrs : Nat)
    (sc cc dc pc yc : String) : List (Value × Option ℚ) :=
  ((dccFiltered df state crop yrs sc cc yc).filter
      (fun r => cellOf r dc != Value.null)).map
    (fun r => (cellOf r dc, (cellOf r pc).toNum))

/-- The `((district, year), production)` pairs of the two-key groupby. -/
def dccByYearPairs (df : DFrame) (state crop : String) (yrs : Nat)
    (sc cc dc pc yc : String) : List ((Value × ℚ) × Option ℚ) :=
  ((dccFiltered df state crop yrs sc cc yc).filter (fun r =>
      (cellOf r dc != Value.null) && (cellOf r yc).toNum.isSome)).map
    (fun r => ((cellOf r dc, (cellOf r yc).toNum.getD 0), (cellOf r pc).toNum))

/-- Models `_compute_district_crop_comparison`.  The recent-year window is computed
from the year column of the *whole* frame, before the state/crop filter.
`district_by_year` comes out of a two-key groupby (keys sorted
lexicographically); the subsequent `sort_values([district, year])` is a
stable re-sort of an already-sorted list and changes nothing.  Rows whose
district (or year) key is NaN are dropped by groupby; the year condition is
vacuous here since the filter already kept only numeric years. -/
def computeDistrictCropComparison (df : DFrame) (state crop : String) (yrs : Nat) : DCCOut :=
  if df.isEmpty then .errUnavailable
  else
    match find_col stateCandsCP df.cols, find_col districtCandsCP df.cols,
        find_col cropCandsCP df.cols, find_col prodCandsDist df.cols,
        find_col yearCandsCP df.cols with
    | some sc, some dc, some cc, some pc, some yc =>
      if (dccFiltered df state crop yrs sc cc yc).isEmpty then .errNoData state crop yrs
      else
        .ok state crop yrs ((dccWindow df yrs yc).map pyInt)
          (List.insertionSort descSnd
            (groupBySum valueLe (dccDistrictPairs df state crop yrs sc cc dc pc yc)))
          (groupBySum pairKeyLe (dccByYearPairs df state crop yrs sc cc dc pc yc))
    | _, _, _, _, _ => .errSchema df.cols

/-! ### The executor's environment and `execute` -/

/-- The data the executor can reach: the rainfall and crop-production frames
its loaders return (an empty frame when unconfigured/unavailable), the two
data-store entries (`none` when `get_dataset` returns None), and the outcome
of `_load_district_crop_production`'s retrieval chain (an empty frame when
every candidate is exhausted).  Retrieval itself is external I/O. -/
structure Env where
  rainfall : DFrame
  cropProduction : DFrame
  storeDistrict : Option DFrame
  storeMajor : Option DFrame
  districtResolved : DFrame
deriving DecidableEq, Repr

/-- Models `df = <o>; if df is None or df.empty: df = <next>`. -/
def orIfEmpty (o : Option DFrame) (next : DFrame) : DFrame :=
  match o with
  | some d => if d.isEmpty then next else d
  | none => next

/-- The frame `_compute_top_crops_state` works on: district store entry,
then major-crops store entry, then a direct fetch. -/
def resolveTCSFrame (env : Env) : DFrame :=
  orIfEmpty env.storeDistrict (orIfEmpty env.storeMajor env.cropProduction)

/-- The frame `_try_state_level_fallback` works on. -/
def resolveFallbackFrame (env : Env) : DFrame :=
  orIfEmpty env.storeMajor env.cropProduction

inductive Arg where
  | s (v : String)
  | n (v : Int)
deriving DecidableEq, Repr

structure StepD where
  type : String
  fields : List (String × Arg)
deriving DecidableEq, Repr

/-- A plan step: the planner emits dicts, plus the bare string "demo-step"
for unrecognized intents. -/
inductive Step where
  | strS (s : String)
  | dictS (d : StepD)
deriving DecidableEq, Repr

/-- Models `step[k]`: raises `KeyError` when the key is absent. -/
def StepD.get (d : StepD) (k : String) : Except PyExc Arg :=
  match d.fields.lookup k with
  | some a => .ok a
  | none => .error (.keyError k)

/-- Typing devices for step arguments.  Plans built by the planner always
carry correctly-typed arguments, so the mixed-type cases are never hit. -/
def Arg.asStr : Arg → String
  | .s v => v
  | .n v => toString v

def Arg.asNat : Arg → Nat
  | .n v => v.toNat
  | .s _ => 0

def Arg.asInt : Arg → Int
  | .n v => v
  | .s _ => 0

inductive Payload where
  | rc (o : RCOut)
  | tc (o : TCOut)
  | ex (o : EXOut)
  | tcs (o : Option TCSOut)
  | dh (o : DHOut)
  | dcc (o : DCCOut)
deriving DecidableEq, Repr

/-- Models `results[k] = v` on an insertion-ordered dict. -/
def upsert (k : String) (v : Payload) (l : List (String × Payload)) :
    List (String × Payload) :=
  if l.any (fun p => p.1 == k) then l.map (fun p => if p.1 == k then (k, v) else p)
  else l ++ [(k, v)]

/-- One iteration of `execute`'s loop (source lines 16–42): a bare-string
step is skipped; a dict step is matched against six independent `if`s (at
most one can fire since step types are compared for equality); argument
lookups and the computations themselves may raise, and nothing catches. -/
def execStep (env : Env) (acc : List (String × Payload)) (st : Step) :
    Except PyExc (List (String × Payload)) :=
  match st with
  | .strS _ => .ok acc
  | .dictS d => do
    let acc1 ←
      if d.type == "compute_rainfall_compare" then do
        let s1 ← d.get "state1"
        let s2 ← d.get "state2"
        let ys ← d.get "years"
        pure (upsert "rainfall_compare"
          (.rc (computeRainfallCompare env.rainfall s1.asStr s2.asStr ys.asNat)) acc)
      else pure acc
    let acc2 ←
      if d.type == "compute_top_crops" then do
        let s1 ← d.get "state1"
        let s2 ← d.get "state2"
        let tm ← d.get "top_m"
        let ct ← d.get "crop_type"
        pure (upsert "top_crops"
          (.tc (computeTopCrops env.cropProduction s1.asStr s2.asStr tm.asNat ct.asStr)) acc1)
      else pure acc1
    let acc3 ←
      if d.type == "compute_district_crop_extrema" then do
        let smax ← d.get "state_max"
        let cmax ← d.get "crop_max"
        let smin ← d.get "state_min"
        let cmin ← d.get "crop_min"
        let r ← computeDistrictCropExtrema env.districtResolved
          smax.asStr cmax.asStr smin.asStr cmin.asStr
        pure (upsert "district_crop_extrema" (.ex r) acc2)
      else pure acc2
    let acc4 ←
      if d.type == "compute_top_crops_state" then do
        let s ← d.get "state"
        let n ← d.get "top_n"
        let y ← d.get "years"
        let r ← computeTopCropsState (resolveTCSFrame env) s.asStr n.asNat y.asNat
        pure (upsert "top_crops_state" (.tcs r) acc3)
      else pure acc3
    let acc5 ←
      if d.type == "compute_district_highest_crop_year" then do
        let s ← d.get "state"
        let c ← d.get "crop"
        let y ← d.get "year"
        let r ← computeDistrictHighestCropYear env.districtResolved
          (resolveFallbackFrame env) s.asStr c.asStr y.asInt
        pure (upsert "district_highest_crop_year" (.dh r) acc4)
      else pure acc4
    if d.type == "compute_district_crop_comparison" then do
      let s ← d.get "state"
      let c ← d.get "crop"
      let y ← d.get "years"
      pure (upsert "district_crop_comparison"
        (.dcc (computeDistrictCropComparison env.districtResolved s.asStr c.asStr y.asNat)) acc5)
    else pure acc5

/-- Models `QueryExecutor.execute` over the step list.  (The returned dict also
echoes the plan verbatim under "plan"; only the computed "answer_data" map
is modelled.)  There is no exception handler anywhere in the loop. -/
def execute (env : Env) (steps : List Step) : Except PyExc (List (String × Payload)) :=
  steps.foldlM (execStep env) []

/-! ### `QueryPlanner.plan_and_execute`: plan construction -/

/-- A parsed intent (the dicts `parse_query` returns, as a tagged union).
`unknown` also stands for any unmatched intent tag: the planner's final line
treats them all alike. -/
inductive Intent where
  | rainfallVsTopCrops (state1 state2 : String) (years top_m : Nat) (crop_type : String)
  | rainfallCompare (state1 state2 : String) (years : Nat)
  | districtCropExtremaCompare (state_max crop_max state_min crop_min : String)
  | topCropsState (state : String) (top_n years : Nat)
  | districtHighestCropYear (state crop : String) (year : Int)
  | districtCropComparison (state crop : String) (years : Nat)
  | unknown
deriving DecidableEq, Repr

/-- The step list `plan_and_execute` builds for each intent before calling
`execute`.  Unmatched intents (the final line of the function) get the
single placeholder string step "demo-step". -/
def planOf : Intent → List Step
  | .rainfallVsTopCrops s1 s2 ys tm _ct =>
    [.dictS ⟨"compute_rainfall_compare",
      [("state1", .s s1), ("state2", .s s2), ("years", .n (ys : Int))]⟩,
     .dictS ⟨"compute_top_crops",
      [("state1", .s s1), ("state2", .s s2), ("top_m", .n (tm : Int)),
       ("crop_type", .s _ct)]⟩]
  | .rainfallCompare s1 s2 ys =>
    [.dictS ⟨"compute_rainfall_compare",
      [("state1", .s s1), ("state2", .s s2), ("years", .n (ys : Int))]⟩]
  | .districtCropExtremaCompare smax cmax smin cmin =>
    [.dictS ⟨"compute_district_crop_extrema",
      [("state_max", .s smax), ("crop_max", .s cmax),
       ("state_min", .s smin), ("crop_min", .s cmin)]⟩]
  | .topCropsState s n ys =>
    [.dictS ⟨"compute_top_crops_state",
      [("state", .s s), ("top_n", .n (n : Int)), ("years", .n (ys : Int))]⟩]
  | .districtHighestCropYear s c y =>
    [.dictS ⟨"compute_district_highest_crop_year",
      [("state", .s s), ("crop", .s c), ("year", .n y)]⟩]
  | .districtCropComparison s c ys =>
    [.dictS ⟨"compute_district_crop_comparison",
      [("state", .s s), ("crop", .s c), ("years", .n (ys : Int))]⟩]
  | .unknown => [.strS "demo-step"]

/-! ### `QueryParser._parse_with_keywords` and the fallback tail of
`parse_query` (source lines 216–232 and 234–363) -/

/-- Why `_parse_with_keywords` raised: `nameError` models the `NameError`
from calling `normalize_state_name`, which is a local function of
`parse_query` and is not in scope inside `_parse_with_keywords`;
`unparsed` models the final `raise Exception("Could not parse query")`. -/
inductive ParseFail where
  | nameError
  | unparsed
deriving DecidableEq, Repr

def rainfallKeywords : List String := ["rainfall", "rain", "precipitation"]

def commonStates10 : List String :=
  ["karnataka", "tamil nadu", "maharashtra", "punjab", "gujarat",
   "uttar pradesh", "bihar", "west bengal", "odisha", "rajasthan"]

def commonStates5 : List String :=
  ["karnataka", "tamil nadu", "maharashtra", "punjab", "gujarat"]

def commonStates19 : List String :=
  ["karnataka", "tamil nadu", "maharashtra", "punjab", "gujarat",
   "uttar pradesh", "bihar", "west bengal", "odisha", "rajasthan",
   "andhra pradesh", "telangana", "kerala", "haryana", "himachal pradesh",
   "madhya pradesh", "assam", "jharkhand", "chhattisgarh"]

def cropKeywordList : List String :=
  ["rice", "wheat", "sugarcane", "cotton", "maize", "jowar", "bajra",
   "millet", "pulses", "oilseed", "groundnut", "soybean", "barley", "mustard",
   "ragi", "tur", "gram", "moong", "urad", "arhar"]

/-- Lexicographic order on `(position, name)` entries (`list.sort()` on
Python tuples). -/
def posNameLe (a b : Nat × String) : Prop :=
  a.1 < b.1 ∨ (a.1 = b.1 ∧ strLe a.2 b.2)

instance : DecidableRel posNameLe := fun a b => by unfold posNameLe; infer_instance

instance : IsTotal (Nat × String) posNameLe :=
  ⟨fun a b => by
    rcases Nat.lt_trichotomy a.1 b.1 with h | h | h
    · exact Or.inl (Or.inl h)
    · rcases listCharLe_total a.2.toList b.2.toList with h2 | h2
      · exact Or.inl (Or.inr ⟨h, h2⟩)
      · exact Or.inr (Or.inr ⟨h.symm, h2⟩)
    · exact Or.inr (Or.inl h)⟩

instance : IsTrans (Nat × String) posNameLe :=
  ⟨fun a b c h1 h2 => by
    rcases h1 with h1 | ⟨h1, h1b⟩ <;> rcases h2 with h2 | ⟨h2, h2b⟩
    · exact Or.inl (lt_trans h1 h2)
    · exact Or.inl (h2 ▸ h1)
    · exact Or.inl (h1 ▸ h2)
    · exact Or.inr ⟨h1.trans h2, listCharLe_trans _ _ _ h1b h2b⟩⟩

/-- The district-query branch of `_parse_with_keywords` (lines 293–361).
Its two successful exits both evaluate `normalize_state_name(state)`, a name
that is not defined in the method's scope, so they raise `NameError`. -/
def parseDistrictBranch (question ql : String) : Except ParseFail Intent :=
  let qlc := ql.toList
  let year? := scanYear none question.toList
  let cropPositions := List.insertionSort posNameLe
    (cropKeywordList.filterMap (fun c => (findWordPos qlc c.toList).map (fun p => (p, c))))
  let statePositions := commonStates19.filterMap
    (fun s => (findWordPos qlc s.toList).map (fun p => (p, s)))
  let state? : Option String :=
    if !statePositions.isEmpty && !cropPositions.isEmpty then
      match cropPositions.head? with
      | some (cropStart, _) =>
        match statePositions.find? (fun p => p.1 > cropStart) with
        | some p => some p.2
        | none => ((List.insertionSort posNameLe statePositions).head?).map Prod.snd
      | none => none
    else if !statePositions.isEmpty then
      ((List.insertionSort posNameLe statePositions).head?).map Prod.snd
    else none
  match state?, cropPositions.head?, year? with
  | some _, some _, some _ => .error .nameError
  | some _, some _, none => .error .nameError
  | _, _, _ => .error .unparsed

/-- Models `_parse_with_keywords(question)`.  Each keyword block only returns on
success and otherwise falls through to the next block. -/
def parseWithKeywords (question : String) : Except ParseFail Intent :=
  let ql := strLower question
  let qlc := ql.toList
  let rainfallResult : Option Intent :=
    if rainfallKeywords.any (fun kw => strContainsSub ql kw) then
      let states := commonStates10.filter (fun st => strContainsSub ql st)
      let years? := scanFirst numYearsAt qlc
      match states with
      | s1 :: s2 :: _ => some (.rainfallCompare s1 s2 (years?.getD 5))
      | _ => none
    else none
  match rainfallResult with
  | some i => .ok i
  | none =>
    let topResult : Option Intent :=
      if strContainsSub ql "top" && strContainsSub ql "crop" then
        let top_n := (scanFirst topNAt qlc).getD 10
        let yrs := (scanFirst numYearsAt qlc).getD 5
        match commonStates5.find? (fun s => strContainsSub ql s) with
        | some st => some (.topCropsState st top_n yrs)
        | none => none
      else none
    match topResult with
    | some i => .ok i
    | none =>
      if strContainsSub ql "district" &&
          (strContainsSub ql "highest" || strContainsSub ql "had") then
        parseDistrictBranch question ql
      else .error .unparsed

/-- The tail of `parse_query`: the keyword fallback runs inside
`try/except Exception`, and any exception (including the `NameError` above)
yields the structured unknown result. -/
def parseQueryFallback (question : String) : Intent :=
  match parseWithKeywords question with
  | .ok i => i
  | .error _ => .unknown

/-! ## Specification-side definitions (phrased from the spec's words, to be
compared with the embedded code) -/

/-- Spec reading: "the `n` most recent distinct values present": distinct, ascending,
drawn from the pool, as many as exist up to `n`, and every distinct value
left out is older than everything selected. -/
def nMostRecentWindow {α : Type} [LinearOrder α] (n : Nat) (pool window : List α) : Prop :=
  window.Nodup ∧ window.Pairwise (· ≤ ·) ∧ (∀ y ∈ window, y ∈ pool) ∧
  window.length = min n pool.dedup.length ∧
  (∀ y ∈ pool, y ∉ window → ∀ z ∈ window, y < z)

/-- Spec reading: "group by key and sum, sort descending, take top n": the output pairs
distinct keys of the input with their group sums, in descending sum order,
as many as exist up to `n`, and no omitted key out-sums a listed one. -/
def topNByTotal {κ : Type} [DecidableEq κ] (n : Nat) (pairs : List (κ × Option ℚ))
    (out : List (κ × ℚ)) : Prop :=
  out.Pairwise descSnd ∧
  (out.map Prod.fst).Nodup ∧
  (∀ p ∈ out, p.1 ∈ pairs.map Prod.fst ∧ p.2 = groupTotal pairs p.1) ∧
  out.length = min n (pairs.map Prod.fst).dedup.length ∧
  (∀ k ∈ pairs.map Prod.fst, k ∉ out.map Prod.fst → ∀ p ∈ out, groupTotal pairs k ≤ p.2)

/-- Spec reading: "per-key totals sorted descending": every distinct key appears exactly
once with its group sum, in descending sum order. -/
def groupedByTotalDesc {κ : Type} [DecidableEq κ] (pairs : List (κ × Option ℚ))
    (out : List (κ × ℚ)) : Prop :=
  out.Pairwise descSnd ∧
  List.Perm (out.map Prod.fst) (pairs.map Prod.fst).dedup ∧
  ∀ p ∈ out, p.2 = groupTotal pairs p.1

/-- Spec reading: "a breakdown sorted by key": every distinct key appears exactly once
with its group sum, keys in ascending `le` order. -/
def groupedAscByKey {κ : Type} [DecidableEq κ] (le : κ → κ → Prop)
    (pairs : List (κ × Option ℚ)) (out : List (κ × ℚ)) : Prop :=
  out.Pairwise (fun a b => le a.1 b.1) ∧
  List.Perm (out.map Prod.fst) (pairs.map Prod.fst).dedup ∧
  ∀ p ∈ out, p.2 = groupTotal pairs p.1

/-- The spec's description of a per-state rainfall entry: the arithmetic
mean of the numeric annual values over rows whose state cell contains the
state name case-insensitively within the window, null when no rows match
(NaN when rows match but none carries a number). -/
def rcAvgSpec (df : DFrame) (sc yc ac : String) (window : List ℚ) (s : String) :
    Option PFloat :=
  let rows := df.rows.filter (fun r =>
    rcMatches (cellOf r sc) s &&
    (match (cellOf r yc).toNum with
     | some q => window.contains q
     | none => false))
  if rows.isEmpty then none
  else
    let ns := numsOf (rows.map (cellOf · ac))
    if ns.isEmpty then some .nan else some (.val (ns.sum / ns.length))

/-- The claim's reading of column-role resolution: the *first candidate
present in the columns case-insensitively* wins, and its matching column is
returned. -/
def resolveFirstCI (cands cols : List String) : Option String :=
  match cands.find? (fun c => cols.any (fun col => strLower col == strLower c)) with
  | some c => cols.find? (fun col => strLower col == strLower c)
  | none => none

/-! ## Concrete fixtures -/

/-- A rainfall table spanning 2018–2022 for Karnataka and Kerala. -/
def rainTable : DFrame :=
  { cols := ["STATE", "YEAR", "ANNUAL"],
    rows :=
      [[("STATE", .str "Karnataka"), ("YEAR", .num 2018), ("ANNUAL", .num 100)],
       [("STATE", .str "Karnataka"), ("YEAR", .num 2019), ("ANNUAL", .num 110)],
       [("STATE", .str "Karnataka"), ("YEAR", .num 2020), ("ANNUAL", .num 120)],
       [("STATE", .str "Karnataka"), ("YEAR", .num 2021), ("ANNUAL", .num 130)],
       [("STATE", .str "Karnataka"), ("YEAR", .num 2022), ("ANNUAL", .num 140)],
       [("STATE", .str "Kerala"), ("YEAR", .num 2018), ("ANNUAL", .num 200)],
       [("STATE", .str "Kerala"), ("YEAR", .num 2019), ("ANNUAL", .num 210)],
       [("STATE", .str "Kerala"), ("YEAR", .num 2020), ("ANNUAL", .num 220)],
       [("STATE", .str "Kerala"), ("YEAR", .num 2021), ("ANNUAL", .num 230)],
       [("STATE", .str "Kerala"), ("YEAR", .num 2022), ("ANNUAL", .num 240)]] }

/-- A long-format crop table: two years of Punjab data,
{Wheat:100, Rice:50} then {Wheat:120, Rice:40}. -/
def punjabCropTable : DFrame :=
  { cols := ["State", "Crop", "Year", "Production"],
    rows :=
      [[("State", .str "Punjab"), ("Crop", .str "Wheat"),
        ("Year", .num 2020), ("Production", .num 100)],
       [("State", .str "Punjab"), ("Crop", .str "Rice"),
        ("Year", .num 2020), ("Production", .num 50)],
       [("State", .str "Punjab"), ("Crop", .str "Wheat"),
        ("Year", .num 2021), ("Production", .num 120)],
       [("State", .str "Punjab"), ("Crop", .str "Rice"),
        ("Year", .num 2021), ("Production", .num 40)]] }

/-- A wide-format table without a `_year` column: recognizable year column,
no state/crop/production columns. -/
def wideYearTable : DFrame :=
  { cols := ["Year", "Wheat"],
    rows := [[("Year", .num 2020), ("Wheat", .num 5)]] }

/-- A long-format table exposing state, crop and year columns but no
production-named column. -/
def noProdTable : DFrame :=
  { cols := ["State", "Crop", "Year"],
    rows := [[("State", .str "Punjab"), ("Crop", .str "Wheat"), ("Year", .num 2020)]] }

/-- A district crop-production table for the district-comparison fixture. -/
def districtTable : DFrame :=
  { cols := ["State_Name", "District_Name", "Crop", "Production", "Year"],
    rows :=
      [[("State_Name", .str "Punjab"), ("District_Name", .str "Amritsar"),
        ("Crop", .str "Rice"), ("Production", .num 30), ("Year", .num 2020)],
       [("State_Name", .str "Punjab"), ("District_Name", .str "Ludhiana"),
        ("Crop", .str "Rice"), ("Production", .num 60), ("Year", .num 2020)],
       [("State_Name", .str "Punjab"), ("District_Name", .str "Amritsar"),
        ("Crop", .str "Rice"), ("Production", .num 40), ("Year", .num 2021)],
       [("State_Name", .str "Punjab"), ("District_Name", .str "Amritsar"),
        ("Crop", .str "Rice"), ("Production", .num 10), ("Year", .num 2018)]] }

/-- An environment with no data anywhere. -/
def emptyEnv : Env :=
  { rainfall := ⟨[], []⟩, cropProduction := ⟨[], []⟩, storeDistrict := none,
    storeMajor := none, districtResolved := ⟨[], []⟩ }

/-- An environment whose store serves the wide `Year`/`Wheat` table. -/
def wideEnv : Env :=
  { rainfall := ⟨[], []⟩, cropProduction := ⟨[], []⟩,
    storeDistrict := some wideYearTable, storeMajor := none,
    districtResolved := ⟨[], []⟩ }

/-- The step types `execute` recognizes. -/
def recognizedTypes : List String :=
  ["compute_rainfall_compare", "compute_top_crops", "compute_district_crop_extrema",
   "compute_top_crops_state", "compute_district_highest_crop_year",
   "compute_district_crop_comparison"]

/-- A step `execute` skips: a bare string, or a dict whose type matches no
recognized computation. -/
def stepSkippable : Step → Prop
  | .strS _ => True
  | .dictS d => d.type ∉ recognizedTypes

/-! ## Helper lemmas -/

theorem recentTail_eq_pyTail {α : Type} (n : Nat) (l : List α) :
    recentTail n l = pyTail n l := by
  unfold recentTail pyTail
  rcases Nat.eq_zero_or_pos n with h | h
  · simp [h]
  · by_cases hc : l.length ≥ n
    · simp [hc]
    · have h0 : l.length - n = 0 := by omega
      simp [hc, h0, Nat.pos_iff_ne_zero.mp h]

theorem pyTail_nMostRecent {α : Type} [LinearOrder α] (n : Nat) (hn : 0 < n)
    (pool : List α) :
    nMostRecentWindow n pool (pyTail n (List.insertionSort (· ≤ ·) pool.dedup)) := by
  have hperm : List.Perm (List.insertionSort (· ≤ ·) pool.dedup) pool.dedup :=
    List.perm_insertionSort _ _
  set l := List.insertionSort (· ≤ ·) pool.dedup with hl
  have hsort : l.Pairwise (· ≤ ·) := List.sorted_insertionSort _ _
  have hnod : l.Nodup := hperm.nodup_iff.mpr (List.nodup_dedup pool)
  have hlen : l.length = pool.dedup.length := hperm.length_eq
  have hmem : ∀ a : α, a ∈ l ↔ a ∈ pool := fun a => hperm.mem_iff.trans List.mem_dedup
  have hpt : pyTail n l = l.drop (l.length - n) := by
    unfold pyTail
    simp [Nat.pos_iff_ne_zero.mp hn]
  rw [hpt]
  refine ⟨hnod.sublist (List.drop_sublist _ _), hsort.sublist (List.drop_sublist _ _),
    fun y hy => (hmem y).mp (List.mem_of_mem_drop hy), ?_, ?_⟩
  · rw [List.length_drop]
    omega
  · intro y hy hyd z hz
    have hyl : y ∈ l := (hmem y).mpr hy
    have hyt : y ∈ l.take (l.length - n) := by
      have h2 := (List.take_append_drop (l.length - n) l) ▸ hyl
      rcases List.mem_append.mp h2 with h1 | h1
      · exact h1
      · exact absurd h1 hyd
    have hle : y ≤ z := hsort.rel_of_mem_take_of_mem_drop hyt hz
    have hne : y ≠ z := fun he =>
      (List.disjoint_take_drop hnod le_rfl) hyt (he ▸ hz)
    exact lt_of_le_of_ne hle hne

theorem recentTail_nMostRecent {α : Type} [LinearOrder α] (n : Nat) (hn : 0 < n)
    (pool : List α) :
    nMostRecentWindow n pool (recentTail n (List.insertionSort (· ≤ ·) pool.dedup)) := by
  rw [recentTail_eq_pyTail]
  exact pyTail_nMostRecent n hn pool

theorem find_col_mem {cands cols : List String} {c : String}
    (h : find_col cands cols = some c) : c ∈ cols := by
  unfold find_col at h
  split at h
  next c1 h1 =>
    injection h with he
    subst he
    simpa using List.find?_some h1
  next h1 =>
    split at h
    next c2 h2 => exact List.mem_reverse.mp (List.mem_of_find?_eq_some h)
    next => simp at h

theorem find_col_none_not_mem {cands cols : List String} {c : String}
    (h : find_col cands cols = none) (hc : c ∈ cands) : c ∉ cols := by
  unfold find_col at h
  split at h
  next c1 h1 => simp at h
  next h1 =>
    intro hmem
    have h2 := List.find?_eq_none.mp h1 c hc
    simp at h2
    exact h2 hmem

theorem groupBySum_fst {κ : Type} [DecidableEq κ] (le : κ → κ → Prop) [DecidableRel le]
    (pairs : List (κ × Option ℚ)) :
    (groupBySum le pairs).map Prod.fst =
      List.insertionSort le (pairs.map Prod.fst).dedup := by
  unfold groupBySum
  rw [List.map_map]
  have hid : (Prod.fst ∘ fun k : κ => (k, groupTotal pairs k)) = id := rfl
  rw [hid, List.map_id]

theorem groupBySum_fst_nodup {κ : Type} [DecidableEq κ] (le : κ → κ → Prop)
    [DecidableRel le] (pairs : List (κ × Option ℚ)) :
    ((groupBySum le pairs).map Prod.fst).Nodup := by
  rw [groupBySum_fst]
  exact (List.perm_insertionSort le _).nodup_iff.mpr (List.nodup_dedup _)

theorem mem_groupBySum {κ : Type} [DecidableEq κ] {le : κ → κ → Prop} [DecidableRel le]
    {pairs : List (κ × Option ℚ)} {p : κ × ℚ} (h : p ∈ groupBySum le pairs) :
    p.1 ∈ pairs.map Prod.fst ∧ p.2 = groupTotal pairs p.1 := by
  unfold groupBySum at h
  rcases List.mem_map.mp h with ⟨k, hk, he⟩
  have hk2 : k ∈ pairs.map Prod.fst :=
    List.mem_dedup.mp ((List.perm_insertionSort le _).mem_iff.mp hk)
  cases he
  exact ⟨hk2, rfl⟩

theorem groupTotal_mem_groupBySum {κ : Type} [DecidableEq κ] (le : κ → κ → Prop)
    [DecidableRel le] {pairs : List (κ × Option ℚ)} {k : κ}
    (hk : k ∈ pairs.map Prod.fst) : (k, groupTotal pairs k) ∈ groupBySum le pairs := by
  unfold groupBySum
  exact List.mem_map.mpr
    ⟨k, (List.perm_insertionSort le _).mem_iff.mpr (List.mem_dedup.mpr hk), rfl⟩

theorem groupBySum_length {κ : Type} [DecidableEq κ] (le : κ → κ → Prop) [DecidableRel le]
    (pairs : List (κ × Option ℚ)) :
    (groupBySum le pairs).length = (pairs.map Prod.fst).dedup.length := by
  unfold groupBySum
  rw [List.length_map, List.length_insertionSort]

theorem groupBySum_sorted_spec {κ : Type} [DecidableEq κ] (le : κ → κ → Prop)
    [DecidableRel le] [IsTotal κ le] [IsTrans κ le] (pairs : List (κ × Option ℚ)) :
    groupedAscByKey le pairs (groupBySum le pairs) := by
  refine ⟨?_, ?_, fun p hp => (mem_groupBySum hp).2⟩
  · have hs : (List.insertionSort le (pairs.map Prod.fst).dedup).Pairwise le :=
      List.sorted_insertionSort le _
    exact hs.map _ (fun a b hab => hab)
  · rw [groupBySum_fst]
    exact List.perm_insertionSort le _

theorem sort_groupBySum_desc_spec {κ : Type} [DecidableEq κ] (le : κ → κ → Prop)
    [DecidableRel le] (pairs : List (κ × Option ℚ)) :
    groupedByTotalDesc pairs (List.insertionSort descSnd (groupBySum le pairs)) := by
  have hperm : List.Perm (List.insertionSort descSnd (groupBySum le pairs))
      (groupBySum le pairs) := List.perm_insertionSort _ _
  refine ⟨List.sorted_insertionSort _ _, ?_,
    fun p hp => (mem_groupBySum (hperm.mem_iff.mp hp)).2⟩
  exact (hperm.map Prod.fst).trans (by rw [groupBySum_fst]; exact List.perm_insertionSort le _)

theorem take_sort_groupBySum_topN {κ : Type} [DecidableEq κ] (le : κ → κ → Prop)
    [DecidableRel le] (n : Nat) (pairs : List (κ × Option ℚ)) :
    topNByTotal n pairs ((List.insertionSort descSnd (groupBySum le pairs)).take n) := by
  set s := List.insertionSort descSnd (groupBySum le pairs) with hs
  have hperm : List.Perm s (groupBySum le pairs) := List.perm_insertionSort _ _
  have hsort : s.Pairwise descSnd := List.sorted_insertionSort _ _
  have hfstnod : (s.map Prod.fst).Nodup :=
    ((hperm.map Prod.fst).nodup_iff).mpr (groupBySum_fst_nodup le pairs)
  have hslen : s.length = (pairs.map Prod.fst).dedup.length := by
    rw [hperm.length_eq, groupBySum_length]
  refine ⟨hsort.sublist (List.take_sublist _ _),
    hfstnod.sublist ((List.take_sublist _ _).map _), ?_, ?_, ?_⟩
  · intro p hp
    exact mem_groupBySum (hperm.mem_iff.mp (List.mem_of_mem_take hp))
  · rw [List.length_take, hslen]
  · intro k hk hknot p hp
    have hmem : (k, groupTotal pairs k) ∈ s :=
      hperm.mem_iff.mpr (groupTotal_mem_groupBySum le hk)
    have hdrop : (k, groupTotal pairs k) ∈ s.drop n := by
      have h2 := (List.take_append_drop n s) ▸ hmem
      rcases List.mem_append.mp h2 with h1 | h1
      · exact absurd (List.mem_map.mpr ⟨_, h1, rfl⟩) hknot
      · exact h1
    exact hsort.rel_of_mem_take_of_mem_drop hp hdrop

theorem execStep_skippable (env : Env) (acc : List (String × Payload)) (st : Step)
    (h : stepSkippable st) : execStep env acc st = .ok acc := by
  cases st with
  | strS s => rfl
  | dictS d =>
    simp only [stepSkippable, recognizedTypes, List.mem_cons, List.not_mem_nil,
      or_false, not_or] at h
    obtain ⟨h1, h2, h3, h4, h5, h6⟩ := h
    simp only [execStep, h1, h2, h3, h4, h5, h6, beq_iff_eq, if_false, ite_false]
    rfl

theorem execute_skippable (env : Env) (steps : List Step)
    (h : ∀ st ∈ steps, stepSkippable st) : execute env steps = .ok [] := by
  unfold execute
  have haux : ∀ (l : List Step), (∀ st ∈ l, stepSkippable st) →
      ∀ acc, l.foldlM (execStep env) acc = .ok acc := by
    intro l
    induction l with
    | nil => intro _ acc; rfl
    | cons st rest ih =>
      intro hl acc
      rw [List.foldlM_cons, execStep_skippable env acc st (hl st (by simp))]
      show rest.foldlM (execStep env) acc = .ok acc
      exact ih (fun s hs => hl s (by simp [hs])) acc
  exact haux steps h []

/-! ## Claim theorems -/

/-- C1 (counterexample): `execute` raises for a malformed step list — a dict
step with the recognized type `compute_rainfall_compare` but no `state1`
field makes `step["state1"]` raise `KeyError`, which nothing catches. -/
theorem C1_counterexample :
    execute emptyEnv [Step.dictS ⟨"compute_rainfall_compare", []⟩] =
      .error (.keyError "state1") := by decide

/-- C1 (amended): `execute` processes the full step list; a bare-string step
or a dict step of unrecognized type is skipped and contributes no key to
AnswerData, and a step list made of such steps never raises and yields an
empty AnswerData; a computation's handled failure is recorded as a payload
under the step's fixed key (here: the no-dataset note on an empty
environment).  However `execute` installs no exception handler, so a
malformed recognized step (missing argument key) or a computation that
raises propagates out of `execute` (see the counterexample). -/
theorem C1_execute_skips (env : Env) (steps : List Step)
    (h : ∀ st ∈ steps, stepSkippable st) :
    execute env steps = .ok [] ∧
    (∀ s, execute env (steps ++ [Step.strS s]) = .ok []) ∧
    execute emptyEnv [Step.dictS ⟨"compute_rainfall_compare",
      [("state1", .s "karnataka"), ("state2", .s "kerala"), ("years", .n 3)]⟩] =
      .ok [("rainfall_compare", .rc .noDataset)] := by
  refine ⟨execute_skippable env steps h, ?_, by decide⟩
  intro s
  refine execute_skippable env _ (fun st hst => ?_)
  rcases List.mem_append.mp hst with h1 | h1
  · exact h st h1
  · simp at h1
    subst h1
    trivial

theorem C1_witness :
    (∀ st ∈ [Step.strS "demo-step", Step.dictS ⟨"frobnicate", []⟩], stepSkippable st) ∧
    execute emptyEnv [Step.strS "demo-step", Step.dictS ⟨"frobnicate", []⟩] = .ok [] :=
  ⟨by intro st hst; fin_cases hst <;> simp [stepSkippable, recognizedTypes],
   (C1_execute_skips emptyEnv [Step.strS "demo-step", Step.dictS ⟨"frobnicate", []⟩]
     (by intro st hst; fin_cases hst <;> simp [stepSkippable, recognizedTypes])).1⟩

/-- C2 (counterexample): the plan for an unknown intent is not empty — the
planner's final line emits the single placeholder step "demo-step". -/
theorem C2_counterexample : planOf Intent.unknown ≠ [] := by decide

/-- C2 (amended): the planner yields exactly 2 steps for
rainfall_vs_top_crops and exactly 1 step for every other recognized intent;
an unknown intent maps not to an empty plan but to one placeholder string
step "demo-step", which the executor runs without error, yielding an empty
AnswerData. -/
theorem C2_plan_sizes :
    (∀ s1 s2 ys tm ct, (planOf (.rainfallVsTopCrops s1 s2 ys tm ct)).length = 2) ∧
    (∀ s1 s2 ys, (planOf (.rainfallCompare s1 s2 ys)).length = 1) ∧
    (∀ a b c d, (planOf (.districtCropExtremaCompare a b c d)).length = 1) ∧
    (∀ s n ys, (planOf (.topCropsState s n ys)).length = 1) ∧
    (∀ s c y, (planOf (.districtHighestCropYear s c y)).length = 1) ∧
    (∀ s c ys, (planOf (.districtCropComparison s c ys)).length = 1) ∧
    planOf .unknown = [.strS "demo-step"] ∧
    (∀ env, execute env (planOf .unknown) = .ok []) :=
  ⟨fun _ _ _ _ _ => rfl, fun _ _ _ => rfl, fun _ _ _ _ => rfl, fun _ _ _ => rfl,
   fun _ _ _ => rfl, fun _ _ _ => rfl, rfl, fun _ => rfl⟩

/-- C3: the district keyword path of `_parse_with_keywords` cannot return an
intent: both of its successful exits call `normalize_state_name`, a local
function of `parse_query` that is not in scope there, raising `NameError`,
which `parse_query` swallows into the unknown intent.  The rainfall keyword
path, which does not normalize, works as claimed. -/
theorem C3_district_keyword_extraction_raises :
    parseWithKeywords "district with highest rice in punjab 2020" = .error .nameError ∧
    parseQueryFallback "district with highest rice in punjab 2020" = .unknown ∧
    parseWithKeywords "district with highest rice in punjab" = .error .nameError ∧
    parseQueryFallback "how much rainfall in karnataka compared to punjab over 3 years" =
      .rainfallCompare "karnataka" "punjab" 3 := by decide

/-- The nested year-then-state row filter of the source equals the fused
filter of the spec-side mean. -/
theorem rcAvgSpec_eq (df : DFrame) (sc yc ac : String) (w : List ℚ) (s : String) :
    (if ((df.rows.filter (fun r =>
          match (cellOf r yc).toNum with
          | some q => w.contains q
          | none => false)).filter (fun r => rcMatches (cellOf r sc) s)).isEmpty then
      (none : Option PFloat)
     else
      some (seriesMean (((df.rows.filter (fun r =>
          match (cellOf r yc).toNum with
          | some q => w.contains q
          | none => false)).filter (fun r => rcMatches (cellOf r sc) s)).map
        (cellOf · ac)))) =
    rcAvgSpec df sc yc ac w s := by
  unfold rcAvgSpec seriesMean
  rw [List.filter_filter]
  split
  next h =>
    simp only [h]
    rfl
  next h =>
    simp only [h]
    exact apply_ite some _ _ _

/-- C4: `RainfallCompare(state1, state2, years)` selects the `years` most
recent distinct numeric year values of the rainfall table (ascending,
distinct, maximal, dominating everything excluded), and per state reports
the arithmetic mean of the numeric annual values over rows whose state cell
contains the state name case-insensitively within that window — null when no
rows match; concretely, on a 2018–2022 table with years=3, the window is
{2020, 2021, 2022} and the means are the filtered arithmetic means. -/
theorem C4_rainfall_compare (df : DFrame) (s1 s2 : String) (n : Nat) (sc yc ac : String)
    (hn : 0 < n)
    (hsc : pick stateCandsRF df.cols = some sc)
    (hyc : pick yearCandsRF df.cols = some yc)
    (hac : pick annualCandsRF df.cols = some ac)
    (hne : df.isEmpty = false) :
    (∃ e1 e2, computeRainfallCompare df s1 s2 n = .ok e1 e2 ∧
      nMostRecentWindow n (numsOf (colVals df yc)) e1.years ∧
      e2.years = e1.years ∧
      e1.avg = rcAvgSpec df sc yc ac e1.years s1 ∧
      e2.avg = rcAvgSpec df sc yc ac e2.years s2) ∧
    computeRainfallCompare rainTable "karnataka" "kerala" 3 =
      .ok ⟨[2020, 2021, 2022], some (.val 130)⟩ ⟨[2020, 2021, 2022], some (.val 230)⟩ := by
  constructor
  · unfold computeRainfallCompare
    rw [hne, hsc, hyc, hac]
    simp only [Bool.false_eq_true, if_false]
    refine ⟨_, _, rfl, ?_, rfl, ?_, ?_⟩
    · exact pyTail_nMostRecent n hn _
    · exact rcAvgSpec_eq df sc yc ac _ s1
    · exact rcAvgSpec_eq df sc yc ac _ s2
  · with_unfolding_all decide

theorem C4_witness :
    (0 < 3 ∧ pick stateCandsRF rainTable.cols = some "STATE" ∧
      pick yearCandsRF rainTable.cols = some "YEAR" ∧
      pick annualCandsRF rainTable.cols = some "ANNUAL" ∧
      rainTable.isEmpty = false) ∧
    (∃ e1 e2, computeRainfallCompare rainTable "karnataka" "kerala" 3 = .ok e1 e2 ∧
      nMostRecentWindow 3 (numsOf (colVals rainTable "YEAR")) e1.years ∧
      e2.years = e1.years ∧
      e1.avg = rcAvgSpec rainTable "STATE" "YEAR" "ANNUAL" e1.years "karnataka" ∧
      e2.avg = rcAvgSpec rainTable "STATE" "YEAR" "ANNUAL" e2.years "kerala") :=
  ⟨⟨by decide, by decide, by decide, by decide, by decide⟩,
   (C4_rainfall_compare rainTable "karnataka" "kerala" 3 "STATE" "YEAR" "ANNUAL"
     (by decide) (by decide) (by decide) (by decide) (by decide)).1⟩

/-- C5: on a long-format table, `TopCropsState(state, top_n, years)` filters
to the state, restricts to the `years` most recent distinct year values
present *for that state*, drops rows missing crop or production, groups by
crop and sums production, sorts descending and takes top_n (distinct crops,
correct group sums, maximal selection); diagnostic sample data is attached
exactly when fewer than top_n crops result.  Concretely, on the two-year
Punjab table the result is [{Wheat,220},{Rice,90}] in that order, and with
top_n=3 the same table yields a debug payload listing the distinct crops. -/
theorem C5_top_crops_state_long (df : DFrame) (state : String) (top_n yrs : Nat)
    (sc cc pc yc : String)
    (hy : 0 < yrs)
    (hsc : find_col stateCandsCP df.cols = some sc)
    (hcc : find_col cropCandsCP df.cols = some cc)
    (hyc : find_col yearCandsTCS df.cols = some yc)
    (hpcd : (find_col prodCandsCP df.cols).getD "Production" = pc)
    (hpc : df.cols.contains pc = true)
    (hne : df.isEmpty = false)
    (hsf : (tcsStateFilter df sc state).isEmpty = false)
    (hrr : (tcsRecentRows df state yrs sc yc).isEmpty = false)
    (hcr : (tcsCropRows df state yrs sc cc pc yc).isEmpty = false) :
    (∃ crops dbg,
      computeTopCropsState df state top_n yrs =
        .ok (some (.ok state top_n yrs crops
          ((tcsWindow df state yrs sc yc).map pyInt) dbg)) ∧
      nMostRecentWindow yrs (tcsStatePool df state sc yc) (tcsWindow df state yrs sc yc) ∧
      topNByTotal top_n (tcsCropPairs df state yrs sc cc pc yc) crops ∧
      (dbg.isSome ↔ crops.length < top_n)) ∧
    computeTopCropsState punjabCropTable "punjab" 2 2 =
      .ok (some (.ok "punjab" 2 2 [("Wheat", 220), ("Rice", 90)] [2020, 2021] none)) ∧
    computeTopCropsState punjabCropTable "punjab" 3 2 =
      .ok (some (.ok "punjab" 3 2 [("Wheat", 220), ("Rice", 90)] [2020, 2021]
        (some { totalRowsAfterFilter := 4, uniqueCropsFound := 2, cropsReturned := 2,
                sampleCrops := ["Wheat", "Rice"],
                sampleData := [("Wheat", 100, 2020), ("Rice", 50, 2020),
                  ("Wheat", 120, 2021), ("Rice", 40, 2021)] }))) := by
  refine ⟨?_, by with_unfolding_all decide, by with_unfolding_all decide⟩
  unfold computeTopCropsState
  rw [hne, hsc, hcc, hyc]
  simp only [Bool.false_eq_true, if_false]
  rw [hpcd]
  unfold tcsLong
  rw [hpc, hsf, hrr, hcr]
  simp only [Bool.false_eq_true, if_false, if_true]
  refine ⟨_, _, rfl, ?_, ?_, ?_⟩
  · exact recentTail_nMostRecent yrs hy _
  · exact take_sort_groupBySum_topN strLe top_n _
  · split
    next h => simpa using h
    next h => simpa using h

theorem C5_witness :
    (0 < 2 ∧ find_col stateCandsCP punjabCropTable.cols = some "State" ∧
      find_col cropCandsCP punjabCropTable.cols = some "Crop" ∧
      find_col yearCandsTCS punjabCropTable.cols = some "Year" ∧
      (find_col prodCandsCP punjabCropTable.cols).getD "Production" = "Production" ∧
      punjabCropTable.cols.contains "Production" = true ∧
      punjabCropTable.isEmpty = false ∧
      (tcsStateFilter punjabCropTable "State" "punjab").isEmpty = false ∧
      (tcsRecentRows punjabCropTable "punjab" 2 "State" "Year").isEmpty = false ∧
      (tcsCropRows punjabCropTable "punjab" 2 "State" "Crop" "Production" "Year").isEmpty
        = false) ∧
    (∃ crops dbg,
      computeTopCropsState punjabCropTable "punjab" 2 2 =
        .ok (some (.ok "punjab" 2 2 crops
          ((tcsWindow punjabCropTable "punjab" 2 "State" "Year").map pyInt) dbg)) ∧
      nMostRecentWindow 2 (tcsStatePool punjabCropTable "punjab" "State" "Year")
        (tcsWindow punjabCropTable "punjab" 2 "State" "Year") ∧
      topNByTotal 2 (tcsCropPairs punjabCropTable "punjab" 2 "State" "Crop"
        "Production" "Year") crops ∧
      (dbg.isSome ↔ crops.length < 2)) :=
  ⟨⟨by decide, by decide, by decide, by decide, by decide, by decide, by decide,
    by decide, by with_unfolding_all decide, by with_unfolding_all decide⟩,
   (C5_top_crops_state_long punjabCropTable "punjab" 2 2 "State" "Crop" "Production" "Year"
     (by decide) (by decide) (by decide) (by decide) (by decide) (by decide) (by decide)
     (by decide) (by with_unfolding_all decide) (by with_unfolding_all decide)).1⟩

/-- C6 (counterexample): with the program's own state-candidate list and
columns `["state_name", "STATE"]`, the exact pass returns `"STATE"` for the
later candidate, while "the first candidate present case-insensitively" is
`State_Name`, whose matching column is `"state_name"`. -/
theorem C6_counterexample :
    find_col stateCandsCP ["state_name", "STATE"] = some "STATE" ∧
    resolveFirstCI stateCandsCP ["state_name", "STATE"] = some "state_name" ∧
    find_col stateCandsCP ["state_name", "STATE"] ≠
      resolveFirstCI stateCandsCP ["state_name", "STATE"] := by decide

/-- C6 (amended): resolution makes an exact pass over all candidates first
and only then a case-insensitive pass; within a pass the first matching
candidate wins; the result is always one of the table's columns (for a
case-insensitive hit, a column with the candidate's lowercase form), and
when no candidate matches either way the result is "absent".  The function
is pure and total by construction. -/
theorem C6_find_col_resolution (cands cols : List String) :
    (∀ c, find_col cands cols = some c → c ∈ cols) ∧
    (∀ c, cands.find? (fun x => cols.contains x) = some c →
      find_col cands cols = some c) ∧
    (cands.find? (fun x => cols.contains x) = none →
      ∀ c, cands.find? (fun x => cols.any (fun col => strLower col == strLower x)) = some c →
        ∃ col, find_col cands cols = some col ∧ col ∈ cols ∧ strLower col = strLower c) ∧
    (cands.find? (fun x => cols.contains x) = none →
      cands.find? (fun x => cols.any (fun col => strLower col == strLower x)) = none →
      find_col cands cols = none) := by
  refine ⟨fun c h => find_col_mem h, ?_, ?_, ?_⟩
  · intro c h
    unfold find_col
    rw [h]
  · intro h1 c h2
    have hany := List.find?_some h2
    rcases List.any_eq_true.mp hany with ⟨col, hcol, hlow⟩
    have hrev : ∃ x ∈ cols.reverse, (fun col => strLower col == strLower c) x = true :=
      ⟨col, List.mem_reverse.mpr hcol, hlow⟩
    rcases h3 : cols.reverse.find? (fun col => strLower col == strLower c) with _ | col2
    · rw [List.find?_eq_none] at h3
      rcases hrev with ⟨x, hx, hpx⟩
      exact absurd hpx (by simpa using h3 x hx)
    · refine ⟨col2, ?_, List.mem_reverse.mp (List.mem_of_find?_eq_some h3), ?_⟩
      · unfold find_col
        rw [h1, h2]
        exact h3
      · simpa using List.find?_some h3
  · intro h1 h2
    unfold find_col
    rw [h1, h2]

theorem C6_witness :
    find_col ["YEAR", "Year"] ["STATE", "Year"] = some "Year" ∧
    "Year" ∈ ["STATE", "Year"] :=
  ⟨by decide,
   (C6_find_col_resolution ["YEAR", "Year"] ["STATE", "Year"]).1 "Year" (by decide)⟩

/-- C7: `DistrictCropComparison(state, crop, years)` restricts to the
`years` most recent distinct year values of the *whole* table (the window is
computed from the full year column, before the state+crop filter), filters
rows by case-insensitive state and crop substrings, and returns per-district
totals sorted descending together with a per-district-per-year breakdown in
ascending (district, year) order, every entry carrying its group sum. -/
theorem C7_district_crop_comparison (df : DFrame) (state crop : String) (yrs : Nat)
    (sc dc cc pc yc : String)
    (hy : 0 < yrs)
    (hsc : find_col stateCandsCP df.cols = some sc)
    (hdc : find_col districtCandsCP df.cols = some dc)
    (hcc : find_col cropCandsCP df.cols = some cc)
    (hpc : find_col prodCandsDist df.cols = some pc)
    (hyc : find_col yearCandsCP df.cols = some yc)
    (hne : df.isEmpty = false)
    (hfil : (dccFiltered df state crop yrs sc cc yc).isEmpty = false) :
    (∃ districts byYear,
      computeDistrictCropComparison df state crop yrs =
        .ok state crop yrs ((dccWindow df yrs yc).map pyInt) districts byYear ∧
      nMostRecentWindow yrs (numsOf (colVals df yc)) (dccWindow df yrs yc) ∧
      groupedByTotalDesc (dccDistrictPairs df state crop yrs sc cc dc pc yc) districts ∧
      groupedAscByKey pairKeyLe (dccByYearPairs df state crop yrs sc cc dc pc yc) byYear) ∧
    computeDistrictCropComparison districtTable "punjab" "rice" 2 =
      .ok "punjab" "rice" 2 [2020, 2021]
        [(.str "Amritsar", 70), (.str "Ludhiana", 60)]
        [((.str "Amritsar", 2020), 30), ((.str "Amritsar", 2021), 40),
         ((.str "Ludhiana", 2020), 60)] := by
  refine ⟨?_, by with_unfolding_all decide⟩
  unfold computeDistrictCropComparison
  rw [hne, hsc, hdc, hcc, hpc, hyc]
  simp only [hfil, Bool.false_eq_true, if_false]
  refine ⟨_, _, rfl, ?_, ?_, ?_⟩
  · exact recentTail_nMostRecent yrs hy _
  · exact sort_groupBySum_desc_spec valueLe _
  · exact groupBySum_sorted_spec pairKeyLe _

theorem C7_witness :
    (0 < 2 ∧ find_col stateCandsCP districtTable.cols = some "State_Name" ∧
      find_col districtCandsCP districtTable.cols = some "District_Name" ∧
      find_col cropCandsCP districtTable.cols = some "Crop" ∧
      find_col prodCandsDist districtTable.cols = some "Production" ∧
      find_col yearCandsCP districtTable.cols = some "Year" ∧
      districtTable.isEmpty = false ∧
      (dccFiltered districtTable "punjab" "rice" 2 "State_Name" "Crop" "Year").isEmpty
        = false) ∧
    (∃ districts byYear,
      computeDistrictCropComparison districtTable "punjab" "rice" 2 =
        .ok "punjab" "rice" 2 ((dccWindow districtTable 2 "Year").map pyInt)
          districts byYear ∧
      nMostRecentWindow 2 (numsOf (colVals districtTable "Year"))
        (dccWindow districtTable 2 "Year") ∧
      groupedByTotalDesc (dccDistrictPairs districtTable "punjab" "rice" 2
        "State_Name" "Crop" "District_Name" "Production" "Year") districts ∧
      groupedAscByKey pairKeyLe (dccByYearPairs districtTable "punjab" "rice" 2
        "State_Name" "Crop" "District_Name" "Production" "Year") byYear) :=
  ⟨⟨by decide, by decide, by decide, by decide, by decide, by decide, by decide,
    by with_unfolding_all decide⟩,
   (C7_district_crop_comparison districtTable "punjab" "rice" 2 "State_Name"
     "District_Name" "Crop" "Production" "Year" (by decide) (by decide) (by decide)
     (by decide) (by decide) (by decide) (by decide)
     (by with_unfolding_all decide)).1⟩

/-- C8: when the district table is unavailable, `DistrictHighestCropYear`
first attempts the state-level fallback — summing production over rows
matching the state and crop case-insensitively and the exact year — and
returns its result as a degraded answer carrying an explanatory warning;
when the fallback also fails it returns an error payload whose
required-columns field is exactly {State, District, Crop, Production, Year}
and which lists two example alternative phrasings. -/
theorem C8_district_highest_unavailable (districtDf fallbackDf : DFrame)
    (state crop : String) (year : Int)
    (hu : districtDf.isEmpty = true) :
    (∀ fb, tryStateLevelFallback fallbackDf state crop (some year) = some fb →
      computeDistrictHighestCropYear districtDf fallbackDf state crop year =
        .ok (.fallbackAnswer fb.state fb.crop fb.year fb.totalProduction
          "For specific district information, please ensure DISTRICT_CROP_PRODUCTION_RESOURCE_ID is correctly configured."
          "District-level data not available. Showing state-level summary instead."
          "To get district-level data, try configuring a valid resource ID for district crop production.")) ∧
    (tryStateLevelFallback fallbackDf state crop (some year) = none →
      computeDistrictHighestCropYear districtDf fallbackDf state crop year =
        .ok (.errUnavailable ["State", "District", "Crop", "Production", "Year"]
          [altQuery1 state, altQuery2 state crop])) ∧
    (∀ (sc cc pc yc : String) fb,
      find_col stateCandsCP fallbackDf.cols = some sc →
      find_col cropCandsCP fallbackDf.cols = some cc →
      find_col prodCandsCP fallbackDf.cols = some pc →
      find_col yearCandsCP fallbackDf.cols = some yc →
      year ≠ 0 →
      tryStateLevelFallback fallbackDf state crop (some year) = some fb →
      fb.state = state ∧ fb.crop = crop ∧ fb.year = some year ∧
      fb.totalProduction =
        (numsOf (((fallbackDf.rows.filter (fun r =>
            strContainsCI (cellOf r sc).toStr state &&
            strContainsCI (cellOf r cc).toStr crop)).filter
          (fun r => cellOf r yc == Value.num (year : ℚ))).map (cellOf · pc))).sum) := by
  refine ⟨?_, ?_, ?_⟩
  · intro fb hfb
    unfold computeDistrictHighestCropYear
    rw [hu, hfb]
    rfl
  · intro hfb
    unfold computeDistrictHighestCropYear
    rw [hu, hfb]
    rfl
  · intro sc cc pc yc fb hsc hcc hpc hyc hy0 hfb
    unfold tryStateLevelFallback at hfb
    rw [hsc, hcc, hpc, hyc] at hfb
    split at hfb
    next he => exact absurd hfb (by simp)
    next he =>
      simp only [if_pos hy0] at hfb
      split at hfb
      next h2 => exact absurd hfb (by simp)
      next h2 =>
        split at hfb
        next h3 =>
          injection hfb with he2
          subst he2
          exact ⟨rfl, rfl, rfl, rfl⟩
        next h3 => exact absurd hfb (by simp)

theorem C8_witness :
    (⟨[], []⟩ : DFrame).isEmpty = true ∧
    computeDistrictHighestCropYear ⟨[], []⟩ ⟨[], []⟩ "punjab" "rice" 2020 =
      .ok (.errUnavailable ["State", "District", "Crop", "Production", "Year"]
        [altQuery1 "punjab", altQuery2 "punjab" "rice"]) :=
  ⟨rfl,
   (C8_district_highest_unavailable ⟨[], []⟩ ⟨[], []⟩ "punjab" "rice" 2020 rfl).2.1 rfl⟩

/-- C9: `_compute_top_crops_state` can fall off the end of the function —
on a frame whose columns are `["Year", "Wheat"]` (no state/crop columns, a
year column not named `_year`), every branch is skipped and the function
returns Python `None`, which `execute` stores verbatim under
"top_crops_state": neither a typed success payload nor an error payload. -/
theorem C9_top_crops_state_returns_none :
    computeTopCropsState wideYearTable "punjab" 3 5 = .ok none ∧
    execute wideEnv [Step.dictS ⟨"compute_top_crops_state",
      [("state", .s "punjab"), ("top_n", .n 3), ("years", .n 5)]⟩] =
      .ok [("top_crops_state", .tcs none)] := by decide

/-- C10: the production role in `_compute_top_crops_state` falls back to the
literal name "Production"; on any non-empty frame with recognizable state,
crop and year columns but no production-named column, the long-format branch
is entered and the unguarded `pd.to_numeric(df["Production"], ...)` raises a
`KeyError` that escapes `execute`. -/
theorem C10_missing_production_raises (df : DFrame) (state : String) (top_n yrs : Nat)
    (hrows : df.rows ≠ []) (hcols : df.cols ≠ [])
    (hsc : (find_col stateCandsCP df.cols).isSome = true)
    (hcc : (find_col cropCandsCP df.cols).isSome = true)
    (hyc : (find_col yearCandsTCS df.cols).isSome = true)
    (hpc : find_col prodCandsCP df.cols = none) :
    computeTopCropsState df state top_n yrs = .error (.keyError "Production") := by
  have hne : df.isEmpty = false := by
    unfold DFrame.isEmpty
    simp [hrows, hcols]
  obtain ⟨sc, hsc'⟩ := Option.isSome_iff_exists.mp hsc
  obtain ⟨cc, hcc'⟩ := Option.isSome_iff_exists.mp hcc
  obtain ⟨yc, hyc'⟩ := Option.isSome_iff_exists.mp hyc
  have hnp : "Production" ∉ df.cols :=
    find_col_none_not_mem hpc (by simp [prodCandsCP])
  have hnc : df.cols.contains "Production" = false := by
    simpa using hnp
  unfold computeTopCropsState
  rw [hne]
  simp only [Bool.false_eq_true, if_false, hsc', hcc', hyc', hpc, Option.getD_none]
  unfold tcsLong
  rw [hnc]
  simp

theorem C10_witness :
    noProdTable.rows ≠ [] ∧ noProdTable.cols ≠ [] ∧
    (find_col stateCandsCP noProdTable.cols).isSome = true ∧
    (find_col cropCandsCP noProdTable.cols).isSome = true ∧
    (find_col yearCandsTCS noProdTable.cols).isSome = true ∧
    find_col prodCandsCP noProdTable.cols = none ∧
    computeTopCropsState noProdTable "punjab" 3 5 = .error (.keyError "Production") :=
  ⟨by decide, by decide, by decide, by decide, by decide, by decide,
   C10_missing_production_raises noProdTable "punjab" 3 5 (by decide) (by decide)
     (by decide) (by decide) (by decide) (by decide)⟩

end MLChatbot
